import Mathlib

/-
Verification of the flask-user-authentication application (src/app.py).

The embedding models:
  * the Credential Store (the MongoDB `users` collection) as a list of
    user documents;
  * the bson ObjectId constructor used by `load_user` (valid input is a
    24-hex-character string; anything else raises InvalidId);
  * the Flask-Login session as either Anonymous or a session bound to a
    user-id string (the value `login_user` stores via `User.get_id`);
  * the routes `login`, `register`, `dashboard` and `logout` as pure
    functions from the store, the session state and the submitted form
    data to the updated store/session and a `Response`;
  * the flask_bcrypt hasher, which is an external collaborator and is
    modelled from the spec (Section 4.1).
-/

namespace FlaskAuth

/-- Hexadecimal digit test, as accepted by the bson ObjectId constructor. -/
def isHexDigit (c : Char) : Bool :=
  c.isDigit || ('a' ≤ c && c ≤ 'f') || ('A' ≤ c && c ≤ 'F')

/-- A string is accepted by `ObjectId(s)` exactly when it is 24 hex characters.
Any other string makes the constructor raise `bson.errors.InvalidId`. -/
def isValidObjectIdStr (s : String) : Bool :=
  s.length == 24 && s.data.all isHexDigit

/-- A document of the `users` collection.  The field names mirror the keys of
the dict built in `User.save` (app.py lines 71-80) plus the store-generated
`_id`; in particular the hash is stored under the key named `password`. -/
structure UserDoc where
  _id : String
  first_name : String
  last_name : String
  email : String
  username : String
  password : String
deriving DecidableEq, Repr

/-- The persisted document of a `UserDoc`, as a key/value list: the dict of
`User.save` with the store-generated `_id` added by `insert_one`. -/
def UserDoc.fields (d : UserDoc) : List (String × String) :=
  [("_id", d._id), ("first_name", d.first_name), ("last_name", d.last_name),
   ("email", d.email), ("username", d.username), ("password", d.password)]

/-- The Credential Store: the `users` collection. -/
abbrev Store := List UserDoc

/-- Model of `users.find_one(\x7b'username': u\x7d)`. -/
def find_one_username (store : Store) (u : String) : Option UserDoc :=
  store.find? (fun d => d.username == u)

/-- Model of `users.find_one(\x7b'email': e\x7d)`. -/
def find_one_email (store : Store) (e : String) : Option UserDoc :=
  store.find? (fun d => d.email == e)

/-- Model of `users.find_one(\x7b'_id': oid\x7d)`. -/
def find_one_id (store : Store) (oid : String) : Option UserDoc :=
  store.find? (fun d => d._id == oid)

/-- Modelled from the spec, Section 4.1: the Password Hasher (flask_bcrypt,
an external collaborator, not under src/).  A salted one-way digest: the
output embeds the salt, two hashes of the same plaintext under different
salts differ, and verification recovers the comparison against the original
plaintext.  The model makes the embedding explicit: the output is the bcrypt
marker followed by the 22-character salt, a separator and a digest determined
by the plaintext. -/
def bcryptMarker : List Char := "$2b$12$".data

/-- Modelled from the spec, Section 4.1: `hash(plaintext) -> hash_string`,
parameterised by the salt drawn for this invocation (22 characters in the
bcrypt format). -/
def generate_password_hash (salt : String) (plaintext : String) : String :=
  ⟨bcryptMarker ++ salt.data ++ '$' :: plaintext.data⟩

/-- Modelled from the spec, Section 4.1: `verify(hash_string, plaintext)`,
true iff the plaintext matches the hash under the salt embedded in the hash;
malformed hash strings yield false. -/
def check_password_hash (h : String) (plaintext : String) : Bool :=
  (h.data.take 7 == bcryptMarker) && (h.data.drop 29 == '$' :: plaintext.data)

/-- Result of the `load_user` callback (app.py lines 46-58): a user object,
`None`, or an uncaught `bson.errors.InvalidId` exception from `ObjectId`. -/
inductive LoadUserResult where
  | user (u : UserDoc)
  | nouser
  | invalidId
deriving DecidableEq, Repr

/-- The Flask-Login user loader: `ObjectId(user_id)` (raising on a malformed
string), then `users.find_one` on the id, returning the user or `None`. -/
def load_user (store : Store) (user_id : String) : LoadUserResult :=
  if isValidObjectIdStr user_id then
    match find_one_id store user_id with
    | some d => .user d
    | none => .nouser
  else .invalidId

/-- The session: Anonymous, or bound to the string id stored by `login_user`
(the value of `User.get_id`, i.e. `str(self._id)`). -/
inductive SessionState where
  | anonymous
  | sessionOf (user_id : String)
deriving DecidableEq, Repr

/-- An HTTP response of the application: a redirect, or a rendered template
together with the flash messages attached to it. -/
inductive Response where
  | redirect (location : String)
  | render (template : String) (flashes : List (String × String))
deriving DecidableEq, Repr

/-- Outcome of a request to a `login_required` route: a response, or an
uncaught exception propagating out of `load_user`. -/
inductive GateResult where
  | response (r : Response)
  | exception
deriving DecidableEq, Repr

/-- Per-request identity resolution: Flask-Login calls `load_user` on the
session-bound id; with no session the request is Anonymous. -/
def resolveUser (store : Store) (s : SessionState) : LoadUserResult :=
  match s with
  | .anonymous => .nouser
  | .sessionOf uid => load_user store uid

/-- Whether the request carries a valid authenticated identity. -/
def isAuthenticated (store : Store) (s : SessionState) : Bool :=
  match resolveUser store s with
  | .user _ => true
  | _ => false

/-- The `/dashboard` route (app.py lines 180-184): `login_required` redirects
an unauthenticated request to the `login_view` (`/login`); an authenticated
one gets the rendered dashboard. -/
def dashboard (store : Store) (s : SessionState) : GateResult :=
  match resolveUser store s with
  | .user _ => .response (.render "dashboard.html" [])
  | .nouser => .response (.redirect "/login")
  | .invalidId => .exception

/-- The `/logout` route (app.py lines 187-191): behind `login_required`;
when authenticated it destroys the session (`logout_user`) and redirects to
`/login`; when anonymous, `login_required` itself redirects to `/login`. -/
def logout (store : Store) (s : SessionState) : SessionState × GateResult :=
  match resolveUser store s with
  | .user _ => (.anonymous, .response (.redirect "/login"))
  | .nouser => (s, .response (.redirect "/login"))
  | .invalidId => (s, .exception)

/-- Data submitted through `RegisterForm`. -/
structure RegisterFormData where
  first_name : String
  last_name : String
  email : String
  username : String
  password : String
deriving DecidableEq, Repr

/-- Data submitted through `LoginForm`. -/
structure LoginFormData where
  username : String
  password : String
deriving DecidableEq, Repr

/-- The `InputRequired` validator: the submitted value is non-empty. -/
def inputRequired (s : String) : Bool := !s.isEmpty

/-- The `Length(min, max)` validator. -/
def lengthBetween (lo hi : Nat) (s : String) : Bool :=
  decide (lo ≤ s.length) && decide (s.length ≤ hi)

/-- Modelled from the spec, Section 4.2: the email must be syntactically
valid (the wtforms `Email()` validator, an external collaborator); modelled
as containing an at sign. -/
def emailSyntaxValid (e : String) : Bool := e.data.contains '@'

/-- The custom `RegisterForm.validate_username` (app.py lines 121-126): a
field-scoped `ValidationError` when the username already exists. -/
def validate_username_error (store : Store) (u : String) : Option String :=
  match find_one_username store u with
  | some _ => some "This username already exists. Please choose a different one."
  | none => none

/-- The custom `RegisterForm.validate_email` (app.py lines 128-133): a
field-scoped `ValidationError` when the email already exists. -/
def validate_email_error (store : Store) (e : String) : Option String :=
  match find_one_email store e with
  | some _ => some "This email is already in use. Please choose a different one."
  | none => none

/-- The built-in field validators of `RegisterForm` (app.py lines 107-117). -/
def registerFieldsValid (f : RegisterFormData) : Bool :=
  inputRequired f.first_name && inputRequired f.last_name &&
  (inputRequired f.email && emailSyntaxValid f.email) &&
  (inputRequired f.username && lengthBetween 4 20 f.username) &&
  (inputRequired f.password && lengthBetween 8 20 f.password)

/-- `form.validate_on_submit()` for `RegisterForm`: the built-in validators
together with the two custom uniqueness validators. -/
def register_validate (store : Store) (f : RegisterFormData) : Bool :=
  registerFieldsValid f &&
  (validate_username_error store f.username).isNone &&
  (validate_email_error store f.email).isNone

/-- The field validators of `LoginForm` (app.py lines 136-143). -/
def loginFieldsValid (f : LoginFormData) : Bool :=
  (inputRequired f.username && lengthBetween 4 20 f.username) &&
  (inputRequired f.password && lengthBetween 8 20 f.password)

/-- The in-memory `User` object (app.py lines 61-68): `_id` is `None` until
the store assigns one. -/
structure User where
  _id : Option String
  first_name : String
  last_name : String
  email : String
  username : String
  password : String
deriving DecidableEq, Repr

/-- The dict built by `User.save` (app.py lines 71-80): five keys, the hash
under the key `password`; no `_id` (that is generated by `insert_one`). -/
def User.save_doc (u : User) : List (String × String) :=
  [("first_name", u.first_name), ("last_name", u.last_name),
   ("email", u.email), ("username", u.username), ("password", u.password)]

/-- Model of `User.save`: `users.insert_one(user_data)` appends the document
to the collection with a store-generated `_id`. -/
def User.save (u : User) (store : Store) (newId : String) : Store :=
  store ++ [{ _id := newId, first_name := u.first_name, last_name := u.last_name,
              email := u.email, username := u.username, password := u.password }]

/-- The document a successful registration of `f` persists, given the salt
drawn by bcrypt and the id generated by the store. -/
def registeredUserDoc (f : RegisterFormData) (salt newId : String) : UserDoc :=
  { _id := newId, first_name := f.first_name, last_name := f.last_name,
    email := f.email, username := f.username,
    password := generate_password_hash salt f.password }

/-- The `/register` route (app.py lines 195-216): on `validate_on_submit`,
hash the password, build the `User` and `save` it, then redirect to
`/login`; otherwise re-render the registration form.  `login_user` is never
called, so the session component passes through unchanged.  `salt` is the
salt bcrypt draws for this request and `newId` the id the store generates. -/
def register (store : Store) (s : SessionState) (f : RegisterFormData)
    (salt newId : String) : Store × SessionState × Response :=
  if register_validate store f then
    let hashed_password := generate_password_hash salt f.password
    let new_user : User :=
      { _id := none, first_name := f.first_name, last_name := f.last_name,
        email := f.email, username := f.username, password := hashed_password }
    (new_user.save store newId, s, .redirect "/login")
  else
    (store, s, .render "register.html" [])

/-- The `/login` route (app.py lines 155-177): on `validate_on_submit`, look
the user up by username; if found and the stored hash verifies, issue a
session bound to the user's id and redirect to `/dashboard`; otherwise (user
not found or hash mismatch alike) flash the generic message and re-render
the login page. -/
def login (store : Store) (f : LoginFormData) : SessionState × Response :=
  if loginFieldsValid f then
    match find_one_username store f.username with
    | some user_data =>
      if check_password_hash user_data.password f.password then
        (.sessionOf user_data._id, .redirect "/dashboard")
      else
        (.anonymous, .render "login.html" [("Invalid username or password", "error")])
    | none => (.anonymous, .render "login.html" [("Invalid username or password", "error")])
  else
    (.anonymous, .render "login.html" [])

/-- The uniqueness invariant of the Credential Store: no two documents share
a username, and no two share an email. -/
def uniqueStore (store : Store) : Prop :=
  store.Pairwise (fun a b => a.username ≠ b.username ∧ a.email ≠ b.email)

/-! Concrete fixtures used to instantiate the theorems below. -/

/-- A 22-character bcrypt salt. -/
def salt0 : String := "aaaaaaaaaaaaaaaaaaaaaa"

/-- A second, distinct 22-character bcrypt salt. -/
def salt1 : String := "bbbbbbbbbbbbbbbbbbbbbb"

/-- A well-formed 24-hex-character ObjectId string. -/
def oid0 : String := "aaaaaaaaaaaaaaaaaaaaaaaa"

/-- A valid registration submission. -/
def f0 : RegisterFormData :=
  { first_name := "Ada", last_name := "Lovelace", email := "a@x.com",
    username := "alice2024", password := "Passw0rdX" }

/-- The store holding exactly the record of a successful registration of
`f0` under salt `salt0` and generated id `oid0`. -/
def store1 : Store := [registeredUserDoc f0 salt0 oid0]

/-- A login submission naming a username absent from `store1`. -/
def flog1 : LoginFormData := { username := "ghost", password := "Passw0rdX" }

/-- A login submission naming the registered username with a wrong password. -/
def flog2 : LoginFormData := { username := "alice2024", password := "WrongPass9" }

/-! Helper lemmas about the modelled bcrypt hasher. -/

/-- Verifying the original plaintext against its hash succeeds. -/
lemma check_generate (salt p : String) (h : salt.length = 22) :
    check_password_hash (generate_password_hash salt p) p = true := by
  have hd : salt.data.length = 22 := h
  have hm : bcryptMarker.length = 7 := rfl
  have htake : (bcryptMarker ++ salt.data ++ '$' :: p.data).take 7 = bcryptMarker := by
    rw [List.append_assoc]
    exact List.take_left' hm
  have hdrop : (bcryptMarker ++ salt.data ++ '$' :: p.data).drop 29 = '$' :: p.data :=
    List.drop_left' (by rw [List.length_append, hm, hd])
  show (((bcryptMarker ++ salt.data ++ '$' :: p.data).take 7 == bcryptMarker) &&
      ((bcryptMarker ++ salt.data ++ '$' :: p.data).drop 29 == '$' :: p.data)) = true
  rw [htake, hdrop]
  simp

/-- Verifying a different plaintext against the hash fails. -/
lemma check_generate_wrong (salt p q : String) (h : salt.length = 22) (hne : q ≠ p) :
    check_password_hash (generate_password_hash salt p) q = false := by
  have hd : salt.data.length = 22 := h
  have hm : bcryptMarker.length = 7 := rfl
  have hdrop : (bcryptMarker ++ salt.data ++ '$' :: p.data).drop 29 = '$' :: p.data :=
    List.drop_left' (by rw [List.length_append, hm, hd])
  have hpq : p.data ≠ q.data := fun hh => hne (String.ext hh).symm
  have hne2 : ('$' :: p.data == '$' :: q.data) = false := by simp [hpq]
  show (((bcryptMarker ++ salt.data ++ '$' :: p.data).take 7 == bcryptMarker) &&
      ((bcryptMarker ++ salt.data ++ '$' :: p.data).drop 29 == '$' :: q.data)) = false
  rw [hdrop, hne2, Bool.and_false]

/-- Hashing the same plaintext under two different salts yields different
hash strings. -/
lemma generate_salt_inj (s1 s2 p : String) (hne : s1 ≠ s2) :
    generate_password_hash s1 p ≠ generate_password_hash s2 p := by
  intro h
  have hd : bcryptMarker ++ s1.data ++ '$' :: p.data
      = bcryptMarker ++ s2.data ++ '$' :: p.data := congrArg String.data h
  have h3 := List.append_cancel_right hd
  have h4 := List.append_cancel_left h3
  exact hne (String.ext h4)

/-- The hash string is never the plaintext itself. -/
lemma generate_ne_plaintext (salt p : String) :
    generate_password_hash salt p ≠ p := by
  intro h
  have hd : bcryptMarker ++ salt.data ++ '$' :: p.data = p.data := congrArg String.data h
  have hl := congrArg List.length hd
  have hm : bcryptMarker.length = 7 := rfl
  simp [List.length_append, hm] at hl
  omega

/-- A passing `register_validate` means neither the submitted username nor
the submitted email is present in the store. -/
lemma success_username_email_fresh (store : Store) (f : RegisterFormData)
    (h : register_validate store f = true) :
    find_one_username store f.username = none ∧
    find_one_email store f.email = none := by
  simp only [register_validate, Bool.and_eq_true] at h
  obtain ⟨⟨-, hu⟩, he⟩ := h
  constructor
  · cases hfind : find_one_username store f.username with
    | none => rfl
    | some d => simp [validate_username_error, hfind] at hu
  · cases hfind : find_one_email store f.email with
    | none => rfl
    | some d => simp [validate_email_error, hfind] at he

/-- C1: every request to /dashboard or /logout in session state Anonymous is
answered with a redirect to /login, and the protected dashboard content is
never rendered. -/
theorem anonymous_requests_redirect_to_login (store : Store) :
    dashboard store SessionState.anonymous =
      GateResult.response (Response.redirect "/login") ∧
    (logout store SessionState.anonymous).2 =
      GateResult.response (Response.redirect "/login") ∧
    ∀ fl, dashboard store SessionState.anonymous ≠
      GateResult.response (Response.render "dashboard.html" fl) := by
  refine ⟨rfl, rfl, ?_⟩
  intro fl hcontra
  simp [dashboard, resolveUser] at hcontra

/-- C2: when the session-bound id is looked up and no record with that id
exists, `load_user` returns no identity and the request is treated as
Anonymous: it is not authenticated and the gate redirects it to /login. -/
theorem load_user_missing_id_fail_closed (store : Store) (uid : String)
    (hvalid : isValidObjectIdStr uid = true)
    (hmiss : find_one_id store uid = none) :
    load_user store uid = LoadUserResult.nouser ∧
    isAuthenticated store (SessionState.sessionOf uid) = false ∧
    dashboard store (SessionState.sessionOf uid) =
      GateResult.response (Response.redirect "/login") := by
  have hl : load_user store uid = LoadUserResult.nouser := by
    simp [load_user, hvalid, hmiss]
  exact ⟨hl, by simp [isAuthenticated, resolveUser, hl],
    by simp [dashboard, resolveUser, hl]⟩

/-- Witness for C2: the empty store holds no record for a well-formed id. -/
theorem load_user_missing_id_fail_closed_witness :
    load_user [] oid0 = LoadUserResult.nouser ∧
    isAuthenticated [] (SessionState.sessionOf oid0) = false ∧
    dashboard [] (SessionState.sessionOf oid0) =
      GateResult.response (Response.redirect "/login") :=
  load_user_missing_id_fail_closed [] oid0 (by decide) (by decide)

/-- C3: registration preserves the uniqueness invariant of the store, and a
submission whose username or email already exists is rejected with its
field-scoped error, leaving the store unchanged. -/
theorem register_preserves_uniqueness (store : Store) (s : SessionState)
    (f : RegisterFormData) (salt newId : String) (h : uniqueStore store) :
    uniqueStore (register store s f salt newId).1 ∧
    ((validate_username_error store f.username).isSome ∨
        (validate_email_error store f.email).isSome →
      (register store s f salt newId).1 = store ∧
      (register store s f salt newId).2.2 = Response.render "register.html" []) := by
  by_cases hv : register_validate store f = true
  · obtain ⟨hu, he⟩ := success_username_email_fresh store f hv
    constructor
    · have hstep : (register store s f salt newId).1 =
          store ++ [registeredUserDoc f salt newId] := by
        simp [register, hv, User.save, registeredUserDoc]
      rw [hstep, uniqueStore, List.pairwise_append]
      refine ⟨h, List.pairwise_singleton _ _, ?_⟩
      intro a ha b hb
      simp only [List.mem_singleton] at hb
      subst hb
      have ha2 := List.find?_eq_none.mp hu a ha
      have ha3 := List.find?_eq_none.mp he a ha
      simp only [beq_iff_eq] at ha2 ha3
      exact ⟨by simpa [registeredUserDoc] using ha2,
        by simpa [registeredUserDoc] using ha3⟩
    · intro hdup
      rcases hdup with hd | hd
      · simp [validate_username_error, hu] at hd
      · simp [validate_email_error, he] at hd
  · have hv2 : register_validate store f = false := by
      revert hv; cases register_validate store f <;> simp
    refine ⟨by simpa [register, hv2] using h, fun _ => ⟨?_, ?_⟩⟩ <;>
      simp [register, hv2]

/-- Witness for C3: registering into the unique one-record store. -/
theorem register_preserves_uniqueness_witness :
    uniqueStore (register store1 SessionState.anonymous f0 salt1 oid0).1 ∧
    ((validate_username_error store1 f0.username).isSome ∨
        (validate_email_error store1 f0.email).isSome →
      (register store1 SessionState.anonymous f0 salt1 oid0).1 = store1 ∧
      (register store1 SessionState.anonymous f0 salt1 oid0).2.2 =
        Response.render "register.html" []) :=
  register_preserves_uniqueness store1 SessionState.anonymous f0 salt1 oid0
    (List.pairwise_singleton _ _)

/-- C4: a login attempt with an unknown username and one with a known
username but a non-verifying password produce the same outcome: the same
single generic flash message on the re-rendered login page, with no session
issued. -/
theorem login_failure_indistinguishable (store : Store) (f1 f2 : LoginFormData)
    (d : UserDoc)
    (h1v : loginFieldsValid f1 = true) (h2v : loginFieldsValid f2 = true)
    (h1 : find_one_username store f1.username = none)
    (h2 : find_one_username store f2.username = some d)
    (h2p : check_password_hash d.password f2.password = false) :
    login store f1 = login store f2 ∧
    login store f1 =
      (SessionState.anonymous,
        Response.render "login.html" [("Invalid username or password", "error")]) := by
  have e1 : login store f1 =
      (SessionState.anonymous,
        Response.render "login.html" [("Invalid username or password", "error")]) := by
    simp [login, h1v, h1]
  have e2 : login store f2 =
      (SessionState.anonymous,
        Response.render "login.html" [("Invalid username or password", "error")]) := by
    simp [login, h2v, h2, h2p]
  exact ⟨e1.trans e2.symm, e1⟩

/-- Witness for C4: unknown username vs. wrong password against the
one-record store. -/
theorem login_failure_indistinguishable_witness :
    login store1 flog1 = login store1 flog2 ∧
    login store1 flog1 =
      (SessionState.anonymous,
        Response.render "login.html" [("Invalid username or password", "error")]) :=
  login_failure_indistinguishable store1 flog1 flog2
    (registeredUserDoc f0 salt0 oid0)
    (by decide) (by decide) (by decide) (by decide) (by decide)

/-- C5: a successful registration redirects to /login and issues no session:
the session state passes through unchanged, so the new user is not
auto-logged-in. -/
theorem register_success_no_autologin (store : Store) (s : SessionState)
    (f : RegisterFormData) (salt newId : String)
    (h : register_validate store f = true) :
    (register store s f salt newId).2.2 = Response.redirect "/login" ∧
    (register store s f salt newId).2.1 = s := by
  simp [register, h]

/-- Witness for C5: registering `f0` into the empty store while Anonymous. -/
theorem register_success_no_autologin_witness :
    (register [] SessionState.anonymous f0 salt0 oid0).2.2 =
      Response.redirect "/login" ∧
    (register [] SessionState.anonymous f0 salt0 oid0).2.1 =
      SessionState.anonymous :=
  register_success_no_autologin [] SessionState.anonymous f0 salt0 oid0 (by decide)

/-- C6: a registration request appends exactly one record to the store when
validation succeeds, and leaves the store unchanged when it fails. -/
theorem register_insert_count (store : Store) (s : SessionState)
    (f : RegisterFormData) (salt newId : String) :
    (register store s f salt newId).1 =
      if register_validate store f then store ++ [registeredUserDoc f salt newId]
      else store := by
  cases hv : register_validate store f <;>
    simp [register, hv, User.save, registeredUserDoc]

/-- C7 counterexample: the document actually persisted for a successful
registration stores the hash under the key named `password`; no key named
`password_hash` exists in it. -/
theorem register_stored_shape_cex :
    (register [] SessionState.anonymous f0 salt0 oid0).1 =
      [registeredUserDoc f0 salt0 oid0] ∧
    (UserDoc.fields (registeredUserDoc f0 salt0 oid0)).map Prod.fst =
      ["_id", "first_name", "last_name", "email", "username", "password"] ∧
    "password_hash" ∉ (UserDoc.fields (registeredUserDoc f0 salt0 oid0)).map Prod.fst := by
  decide

/-- C7 amended: every successful registration persists exactly the document
with keys _id, first_name, last_name, email, username and password, where
the key `password` holds the bcrypt hash of the submitted password and never
the plaintext password itself. -/
theorem register_stored_shape (store : Store) (s : SessionState)
    (f : RegisterFormData) (salt newId : String)
    (h : register_validate store f = true) :
    (register store s f salt newId).1 = store ++ [registeredUserDoc f salt newId] ∧
    (UserDoc.fields (registeredUserDoc f salt newId)).map Prod.fst =
      ["_id", "first_name", "last_name", "email", "username", "password"] ∧
    ("password", generate_password_hash salt f.password) ∈
      UserDoc.fields (registeredUserDoc f salt newId) ∧
    generate_password_hash salt f.password ≠ f.password := by
  refine ⟨by simp [register, h, User.save, registeredUserDoc],
    by simp [UserDoc.fields, registeredUserDoc], ?_,
    generate_ne_plaintext salt f.password⟩
  simp [UserDoc.fields, registeredUserDoc]

/-- Witness for the amended C7: the concrete registration of `f0`. -/
theorem register_stored_shape_witness :
    (register [] SessionState.anonymous f0 salt0 oid0).1 =
      [] ++ [registeredUserDoc f0 salt0 oid0] ∧
    (UserDoc.fields (registeredUserDoc f0 salt0 oid0)).map Prod.fst =
      ["_id", "first_name", "last_name", "email", "username", "password"] ∧
    ("password", generate_password_hash salt0 f0.password) ∈
      UserDoc.fields (registeredUserDoc f0 salt0 oid0) ∧
    generate_password_hash salt0 f0.password ≠ f0.password :=
  register_stored_shape [] SessionState.anonymous f0 salt0 oid0 (by decide)

/-- C8: verifying a plaintext against its own hash succeeds, verifying a
different plaintext fails, and hashing the same plaintext under two
different salts yields different hash strings that both verify. -/
theorem hash_verify_roundtrip (s1 s2 p q : String)
    (h1 : s1.length = 22) (h2 : s2.length = 22) (hs : s1 ≠ s2) (hq : q ≠ p) :
    check_password_hash (generate_password_hash s1 p) p = true ∧
    check_password_hash (generate_password_hash s1 p) q = false ∧
    generate_password_hash s1 p ≠ generate_password_hash s2 p ∧
    check_password_hash (generate_password_hash s2 p) p = true :=
  ⟨check_generate s1 p h1, check_generate_wrong s1 p q h1 hq,
   generate_salt_inj s1 s2 p hs, check_generate s2 p h2⟩

/-- Witness for C8: two concrete salts and two concrete plaintexts. -/
theorem hash_verify_roundtrip_witness :
    check_password_hash (generate_password_hash salt0 "Passw0rdX") "Passw0rdX" = true ∧
    check_password_hash (generate_password_hash salt0 "Passw0rdX") "Passw0rdY" = false ∧
    generate_password_hash salt0 "Passw0rdX" ≠ generate_password_hash salt1 "Passw0rdX" ∧
    check_password_hash (generate_password_hash salt1 "Passw0rdX") "Passw0rdX" = true :=
  hash_verify_roundtrip salt0 salt1 "Passw0rdX" "Passw0rdY"
    (by decide) (by decide) (by decide) (by decide)

/-- C9: logging out while authenticated destroys the session and redirects
to /login, and a second logout with the session gone also redirects to
/login without error. -/
theorem logout_idempotent (store : Store) (s : SessionState)
    (h : isAuthenticated store s = true) :
    logout store s =
      (SessionState.anonymous, GateResult.response (Response.redirect "/login")) ∧
    logout store (logout store s).1 =
      (SessionState.anonymous, GateResult.response (Response.redirect "/login")) := by
  have h1 : logout store s =
      (SessionState.anonymous, GateResult.response (Response.redirect "/login")) := by
    cases hr : resolveUser store s with
    | user u => simp [logout, hr]
    | nouser => simp [isAuthenticated, hr] at h
    | invalidId => simp [isAuthenticated, hr] at h
  refine ⟨h1, ?_⟩
  rw [h1]
  rfl

/-- Witness for C9: an authenticated session over the one-record store. -/
theorem logout_idempotent_witness :
    logout store1 (SessionState.sessionOf oid0) =
      (SessionState.anonymous, GateResult.response (Response.redirect "/login")) ∧
    logout store1 (logout store1 (SessionState.sessionOf oid0)).1 =
      (SessionState.anonymous, GateResult.response (Response.redirect "/login")) :=
  logout_idempotent store1 (SessionState.sessionOf oid0) (by decide)

/-- C10: a session value that is not a well-formed 24-hex-character ObjectId
string makes `load_user` raise InvalidId rather than return None: the
fail-closed branch is not reached for malformed ids. -/
theorem load_user_malformed_id_raises (store : Store) (uid : String)
    (h : isValidObjectIdStr uid = false) :
    load_user store uid = LoadUserResult.invalidId ∧
    load_user store uid ≠ LoadUserResult.nouser := by
  have hl : load_user store uid = LoadUserResult.invalidId := by
    simp [load_user, h]
  exact ⟨hl, by simp [hl]⟩

/-- Witness for C10: a session value that is not 24 hex characters. -/
theorem load_user_malformed_id_raises_witness :
    load_user [] "not-a-valid-objectid" = LoadUserResult.invalidId ∧
    load_user [] "not-a-valid-objectid" ≠ LoadUserResult.nouser :=
  load_user_malformed_id_raises [] "not-a-valid-objectid" (by decide)

end FlaskAuth
